import Mathlib

/-!
Verification of the athletic-optimization-system repository: eight standalone
Python scripts that each send one hard-coded prompt to a hosted completion
service, print the returned text and (for seven of them) persist it to a
local file.  The embedding below models bytes as natural numbers below 256,
the base64 codec used by `briefing_generator.encode_image`, the request /
response data model, and each script's linear sequence of effects as a trace.
-/

namespace AthleticOpt

/-! ## Base64 (Python `base64.standard_b64encode` / `base64.b64decode`) -/

/-- The standard base64 alphabet, in encoding order. -/
def b64Alphabet : List Char :=
  String.toList "ABCDEFGHIJKLMNOPQRSTUVWXYZabcdefghijklmnopqrstuvwxyz0123456789+/"

/-- Character encoding a six-bit group (callers only use `s < 64`). -/
def sextetChar (s : Nat) : Char := b64Alphabet.getD s '='

/-- Position of a character in the base64 alphabet, `none` for padding or
any character outside the alphabet. -/
def charSextet (c : Char) : Option Nat := b64Alphabet.indexOf? c

/-- Python `base64.standard_b64encode`: three input bytes become four alphabet
characters; a ragged tail of one or two bytes is padded with `=`. -/
def b64encodeChunks : List Nat → List Char
  | [] => []
  | [b0] =>
      [sextetChar (b0 / 4), sextetChar (b0 % 4 * 16), '=', '=']
  | [b0, b1] =>
      [sextetChar (b0 / 4), sextetChar (b0 % 4 * 16 + b1 / 16),
       sextetChar (b1 % 16 * 4), '=']
  | b0 :: b1 :: b2 :: rest =>
      sextetChar (b0 / 4) :: sextetChar (b0 % 4 * 16 + b1 / 16) ::
      sextetChar (b1 % 16 * 4 + b2 / 64) :: sextetChar (b2 % 64) ::
      b64encodeChunks rest

/-- The standard base64 decoder (Python `base64.b64decode` on well-formed
input): four characters yield three bytes, with `=` padding closing the
stream after a ragged group of two or three characters. -/
def b64decodeChunks : List Char → Option (List Nat)
  | [] => some []
  | c0 :: c1 :: c2 :: c3 :: rest =>
      match charSextet c0, charSextet c1 with
      | some s0, some s1 =>
          if c2 = '=' then
            if c3 = '=' ∧ rest = [] then some [s0 * 4 + s1 / 16] else none
          else
            match charSextet c2 with
            | some s2 =>
                if c3 = '=' then
                  if rest = [] then
                    some [s0 * 4 + s1 / 16, s1 % 16 * 16 + s2 / 4]
                  else none
                else
                  match charSextet c3, b64decodeChunks rest with
                  | some s3, some tail =>
                      some ((s0 * 4 + s1 / 16) :: (s1 % 16 * 16 + s2 / 4) ::
                            (s2 % 4 * 64 + s3) :: tail)
                  | _, _ => none
            | none => none
      | _, _ => none
  | _ => none

/-- Python `base64.standard_b64encode(...).decode("utf-8")` as a string. -/
def b64encode (bs : List Nat) : String := String.mk (b64encodeChunks bs)

/-- Python `base64.b64decode` on a string. -/
def b64decode (s : String) : Option (List Nat) := b64decodeChunks s.toList

theorem charSextet_sextetChar : ∀ s < 64, charSextet (sextetChar s) = some s := by
  decide

theorem sextetChar_ne_pad : ∀ s < 64, sextetChar s ≠ '=' := by
  decide

theorem b64decodeChunks_b64encodeChunks (bs : List Nat) (hb : ∀ b ∈ bs, b < 256) :
    b64decodeChunks (b64encodeChunks bs) = some bs := by
  induction bs using b64encodeChunks.induct with
  | case1 => rfl
  | case2 b0 =>
      have h0 : b0 < 256 := hb b0 (by simp)
      have hs0 : b0 / 4 < 64 := by omega
      have hs1 : b0 % 4 * 16 < 64 := by omega
      simp only [b64encodeChunks, b64decodeChunks,
        charSextet_sextetChar _ hs0, charSextet_sextetChar _ hs1]
      simp
      omega
  | case3 b0 b1 =>
      have h0 : b0 < 256 := hb b0 (by simp)
      have h1 : b1 < 256 := hb b1 (by simp)
      have hs0 : b0 / 4 < 64 := by omega
      have hs1 : b0 % 4 * 16 + b1 / 16 < 64 := by omega
      have hs2 : b1 % 16 * 4 < 64 := by omega
      simp only [b64encodeChunks, b64decodeChunks,
        charSextet_sextetChar _ hs0, charSextet_sextetChar _ hs1,
        charSextet_sextetChar _ hs2, sextetChar_ne_pad _ hs2]
      simp
      constructor
      · omega
      · omega
  | case4 b0 b1 b2 rest ih =>
      have h0 : b0 < 256 := hb b0 (by simp)
      have h1 : b1 < 256 := hb b1 (by simp)
      have h2 : b2 < 256 := hb b2 (by simp)
      have hrest : ∀ b ∈ rest, b < 256 := fun b hbm => hb b (by simp [hbm])
      have hs0 : b0 / 4 < 64 := by omega
      have hs1 : b0 % 4 * 16 + b1 / 16 < 64 := by omega
      have hs2 : b1 % 16 * 4 + b2 / 64 < 64 := by omega
      have hs3 : b2 % 64 < 64 := by omega
      simp only [b64encodeChunks, b64decodeChunks,
        charSextet_sextetChar _ hs0, charSextet_sextetChar _ hs1,
        charSextet_sextetChar _ hs2, sextetChar_ne_pad _ hs2,
        charSextet_sextetChar _ hs3, sextetChar_ne_pad _ hs3, ih hrest]
      simp
      refine ⟨by omega, by omega, by omega⟩

theorem b64decode_b64encode (bs : List Nat) (hb : ∀ b ∈ bs, b < 256) :
    b64decode (b64encode bs) = some bs := by
  have : (b64encode bs).toList = b64encodeChunks bs := rfl
  rw [b64decode, this, b64decodeChunks_b64encodeChunks bs hb]

/-! ## Data model (spec §3 / §6) -/

/-- One unit of a turn's or a response's payload: text, or an embedded
base64 image tagged with a mime type. -/
inductive ContentBlock where
  | text (s : String)
  | image (media_type : String) (data : String)

/-- The service response: an ordered sequence of content blocks. -/
structure Response where
  content : List ContentBlock

/-- One message of the conversation sent to the service. -/
structure Turn where
  role : String
  content : List ContentBlock

/-- A `client.messages.create(...)` argument list: model identifier, token
budget, optional system instructions and the user turns. -/
structure Request where
  model : String
  max_tokens : Nat
  system : Option String
  messages : List Turn

/-- The errors a script run can surface (spec §7 taxonomy, plus the Python
exceptions the plain attribute/index accesses can raise). -/
inductive RunError where
  | authenticationError
  | serviceError
  | ioError
  | indexError
  | attributeError
deriving DecidableEq

/-- An observable effect of a script run, in program order: a binary file
read (image encoding), the single outbound service call, a line printed to
standard output, an output file opened for (truncating) writing, and the
file's contents being written. -/
inductive Event where
  | readBin (path : String)
  | apiCall (req : Request)
  | stdout (s : String)
  | fileOpen (path : String)
  | fileWrite (path : String) (contents : String)

def Event.isFileWrite : Event → Bool
  | .fileWrite _ _ => true
  | _ => false

def Event.isFileOpen : Event → Bool
  | .fileOpen _ => true
  | _ => false

def Event.isApiCall : Event → Bool
  | .apiCall _ => true
  | _ => false

def Event.isStdout : Event → Bool
  | .stdout _ => true
  | _ => false

def Event.isReadBin : Event → Bool
  | .readBin _ => true
  | _ => false

/-- The ambient world a script runs in: the text files it may write, the
binary files it may read (screenshots), which paths can be opened for
writing, the credential resolved by `load_dotenv` + `os.environ.get`, and
the remote service's behaviour on a request. -/
structure Env where
  textFiles : String → Option String
  binFiles : String → Option (List Nat)
  writable : String → Bool
  apiKey : Option String
  service : Request → Except RunError Response

/-- Modelled from the spec (§6, credential resolution): the SDK client is
constructed from the ambient credential without validation — construction
always succeeds — and a missing credential is only discovered lazily, at
the moment `messages.create` attempts the remote call, as
`AuthenticationError`. -/
def messagesCreate (env : Env) (req : Request) : Except RunError Response :=
  match env.apiKey with
  | none => .error .authenticationError
  | some _ => env.service req

/-- Extraction `message.content[0].text`: Python raises `IndexError` on an empty
content list and `AttributeError` when the first block carries no `text`
attribute; otherwise it is the text of the first block, the rest of the
response being ignored. -/
def extractBody (r : Response) : Except RunError String :=
  match r.content with
  | [] => .error .indexError
  | ContentBlock.text s :: _ => .ok s
  | ContentBlock.image _ _ :: _ => .error .attributeError

/-- Destination of a script's artifact: output path, the literal header
written before the body, and the confirmation line printed afterwards. -/
structure OutputSpec where
  path : String
  header : String
  confirm : String

/-- A script of the repository: how it builds its request (reading binary
files and logging those reads, possibly failing with `IOError`), and its
output artifact, `none` for the one script that writes no file. -/
structure Script where
  buildRequest : (String → Option (List Nat)) →
    List Event × Except RunError Request
  outSpec : Option OutputSpec

/-- Outcome of one script invocation: the ordered effect trace, the final
text-file state, and `.ok ()` exactly when the process exits zero. -/
structure RunResult where
  trace : List Event
  files : String → Option String
  result : Except RunError Unit

/-- The common linear behaviour of every script (spec §4.1 PromptRunner):
build the request, make the single service call, extract
`message.content[0].text`, print it, and — when the script persists an
artifact — open the output path truncating it, write header then body, and
print the confirmation line.  Any failure stops the run at that point. -/
def runScript (sc : Script) (env : Env) : RunResult :=
  match sc.buildRequest env.binFiles with
  | (evs, .error e) => ⟨evs, env.textFiles, .error e⟩
  | (evs, .ok req) =>
    match messagesCreate env req with
    | .error e => ⟨evs ++ [.apiCall req], env.textFiles, .error e⟩
    | .ok resp =>
      match extractBody resp with
      | .error e => ⟨evs ++ [.apiCall req], env.textFiles, .error e⟩
      | .ok body =>
        match sc.outSpec with
        | none => ⟨evs ++ [.apiCall req, .stdout body], env.textFiles, .ok ()⟩
        | some o =>
          if env.writable o.path then
            ⟨evs ++ [.apiCall req, .stdout body, .fileOpen o.path,
                     .fileWrite o.path (o.header ++ body), .stdout o.confirm],
             fun p => if p = o.path then some (o.header ++ body)
                      else env.textFiles p,
             .ok ()⟩
          else
            ⟨evs ++ [.apiCall req, .stdout body, .fileOpen o.path],
             env.textFiles, .error .ioError⟩

/-! ## The eight scripts, with their hard-coded prompts -/

/-- Function `encode_image` of `briefing_generator.py`: open the file at
`image_path`, read it in its entirety, base64-encode the bytes and decode
the result as UTF-8 text; raises `IOError` when the file is absent or
unreadable. -/
def encode_image (binFiles : String → Option (List Nat))
    (image_path : String) : Except RunError String :=
  match binFiles image_path with
  | none => .error .ioError
  | some bytes => .ok (b64encode bytes)

namespace TestClaude

def test_message : String := "Say hello and confirm you\x27re working!"

end TestClaude

/-- Script `test_claude.py`: one plain request, prints the reply, writes no
file. -/
def test_claude : Script :=
  { buildRequest := fun _ => ([], .ok
      { model := "claude-sonnet-4-20250514", max_tokens := 1024,
        system := none,
        messages := [⟨"user", [ContentBlock.text TestClaude.test_message]⟩] }),
    outSpec := none }

namespace SystemArchitect

def system_prompt : String := "You are an expert System Architect specializing in athletic performance optimization systems.\n\nYour job:\n- Design data flow architecture for multi-device integration (Oura, Garmin, Polar, Stryd)\n- Specify API integration requirements\n- Define database schema for training/recovery data\n- Create system diagrams and technical specifications\n- Identify potential bottlenecks and solutions\n\nBe specific, technical, and actionable."

def user_question : String := "Design the system architecture for an athletic optimization platform that:\n\n1. Integrates data from:\n   - Oura Ring (sleep, HRV, RHR, body temp, SPO2)\n   - Garmin Connect API (workouts, HR, pace, cadence, power from Stryd)\n   \n2. Analyzes patterns across:\n   - Training load\n   - Recovery metrics\n   - Sleep quality\n   - Performance trends\n\n3. Generates recommendations for:\n   - When to train hard vs easy\n   - Optimal sleep timing\n   - Recovery interventions needed\n   - Performance predictions\n\nProvide:\n- High-level architecture diagram (text description)\n- API integration approach\n- Database schema recommendations\n- Processing pipeline design"

end SystemArchitect

/-- Script `system_architect.py`: writes `ARCHITECTURE.md` with a single-line
header. -/
def system_architect : Script :=
  { buildRequest := fun _ => ([], .ok
      { model := "claude-sonnet-4-20250514", max_tokens := 4000,
        system := some SystemArchitect.system_prompt,
        messages := [⟨"user", [ContentBlock.text SystemArchitect.user_question]⟩] }),
    outSpec := some
      { path := "ARCHITECTURE.md",
        header := "# Athletic Optimization System Architecture\n\n",
        confirm := "\n✅ Architecture saved to ARCHITECTURE.md" } }

namespace DataEngineer

def system_prompt : String := "You are an expert Data Engineer specializing in wearable device API integration.\n\nYour job:\n- Design OAuth authentication flows for APIs\n- Specify data extraction endpoints and methods\n- Define data transformation pipelines (including unit conversions)\n- Create data validation and error handling strategies\n- Design database schema for raw and processed data\n\nBe specific, include code examples, and provide actionable implementation steps."

def user_question : String := "Design the data integration pipeline for:\n\n**SOURCE 1: Oura Ring API**\n- Sleep data (stages, efficiency, timing)\n- Readiness score\n- HRV, RHR, body temperature\n- SPO2\n- Activity data\n\n**SOURCE 2: Garmin Connect API**\n- Workout data (GPS, HR, pace, elevation)\n- Stryd power data (flows through Garmin)\n- Daily activity summary\n- Training load metrics\n\n**REQUIREMENTS:**\n1. OAuth 2.0 authentication for both APIs\n2. Automated daily data pulls\n3. **ALL DISTANCE CONVERSIONS: km → miles** (critical!)\n4. Data validation and error handling\n5. Storage in structured format for analysis\n6. Deduplication logic\n\n**PROVIDE:**\n- API endpoint specifications\n- Authentication flow diagrams\n- Data transformation pipeline (with km→miles conversion)\n- Database schema recommendations\n- Python code examples for key functions"

end DataEngineer

/-- Script `data_engineer.py`: writes `DATA_INTEGRATION_GUIDE.md` with a
two-line header. -/
def data_engineer : Script :=
  { buildRequest := fun _ => ([], .ok
      { model := "claude-sonnet-4-20250514", max_tokens := 4000,
        system := some DataEngineer.system_prompt,
        messages := [⟨"user", [ContentBlock.text DataEngineer.user_question]⟩] }),
    outSpec := some
      { path := "DATA_INTEGRATION_GUIDE.md",
        header := "# Data Integration Guide\n\n**Athletic Optimization System - API Integration Specifications**\n\n",
        confirm := "\n✅ Data integration guide saved to DATA_INTEGRATION_GUIDE.md" } }

namespace BackendDeveloper

def system_prompt : String := "You are an expert Backend Developer specializing in Python API integrations and data pipelines.\n\nYour job:\n- Write production-ready Python code\n- Implement OAuth authentication flows\n- Create robust API client classes\n- Build data transformation pipelines\n- Include comprehensive error handling\n- Write clean, well-documented code\n\nProvide actual working code, not pseudocode."

def user_question : String := "Based on the system architecture and data integration specs, write the core Python modules for:\n\n**MODULE 1: Oura API Client**\n- OAuth 2.0 authentication\n- Methods to fetch: sleep data, readiness, HRV, RHR, activity\n- Rate limiting and error handling\n- Data validation\n\n**MODULE 2: Garmin API Client**\n- OAuth 2.0 authentication\n- Methods to fetch: workouts, activities, training metrics\n- Parse Stryd data from Garmin activities\n- Rate limiting and error handling\n\n**MODULE 3: Data Transformer**\n- **Convert ALL distances from km to miles**\n- Standardize timestamps (UTC)\n- Validate data ranges (HR, pace, etc.)\n- Handle missing data\n- Format for database storage\n\n**MODULE 4: Database Manager**\n- SQLite schema (can upgrade to PostgreSQL later)\n- Insert/update operations\n- Deduplication logic\n- Query helpers for analysis\n\n**REQUIREMENTS:**\n- Production-ready code\n- Type hints\n- Docstrings\n- Error handling\n- Unit conversion constants (KM_TO_MILES = 0.621371)\n\nProvide complete, working Python code for all 4 modules."

end BackendDeveloper

/-- Script `backend_developer.py`: writes `IMPLEMENTATION_CODE.md` with a
two-line header. -/
def backend_developer : Script :=
  { buildRequest := fun _ => ([], .ok
      { model := "claude-sonnet-4-20250514", max_tokens := 4000,
        system := some BackendDeveloper.system_prompt,
        messages := [⟨"user", [ContentBlock.text BackendDeveloper.user_question]⟩] }),
    outSpec := some
      { path := "IMPLEMENTATION_CODE.md",
        header := "# Implementation Code\n\n**Athletic Optimization System - Core Python Modules**\n\n",
        confirm := "\n✅ Implementation code saved to IMPLEMENTATION_CODE.md" } }

namespace DataAnalyst

def system_prompt : String := "You are an expert Data Analyst and Sports Scientist specializing in athletic performance optimization.\n\nYour job:\n- Design analytical models for training optimization\n- Create recommendation algorithms based on recovery metrics\n- Build predictive models for performance\n- Define alert thresholds for overtraining/injury risk\n- Specify data visualization strategies\n\nCombine data science with sports science expertise."

def user_question : String := "Design the recommendation engine for athletic optimization:\n\n**INPUT DATA:**\n- Resting Heart Rate (RHR) trends\n- Heart Rate Variability (HRV)\n- Sleep quality metrics (efficiency, duration, deep sleep %)\n- Training load (weekly mileage, intensity distribution)\n- Recovery scores (Oura readiness)\n- Performance metrics (pace at threshold HR, running power)\n- Body temperature trends\n- SPO2 readings\n\n**OUTPUTS NEEDED:**\n1. **Daily Training Recommendations:**\n   - Go hard (quality workout)\n   - Go moderate (tempo/steady)\n   - Go easy (recovery run)\n   - Rest day (full recovery needed)\n\n2. **Recovery Interventions:**\n   - Sleep optimization suggestions\n   - Active recovery protocols\n   - When to take extra rest\n\n3. **Performance Predictions:**\n   - Fitness trend analysis\n   - Race readiness assessment\n   - Optimal taper timing\n\n4. **Risk Alerts:**\n   - Overtraining warning signs\n   - Injury risk indicators\n   - Illness/burnout flags\n\n**SPECIFIC REQUIREMENTS:**\n- Define RHR threshold logic (e.g., >3 bpm above baseline = yellow flag)\n- HRV interpretation (% deviation from norm)\n- Sleep debt calculation\n- Training load vs recovery balance\n- Trend analysis (3-day, 7-day, 4-week windows)\n\n**PROVIDE:**\n- Decision tree logic for recommendations\n- Alert threshold specifications\n- Python implementation examples\n- Visualization recommendations"

end DataAnalyst

/-- Script `data_analyst.py`: writes `RECOMMENDATION_ENGINE.md` with a two-line
header. -/
def data_analyst : Script :=
  { buildRequest := fun _ => ([], .ok
      { model := "claude-sonnet-4-20250514", max_tokens := 4000,
        system := some DataAnalyst.system_prompt,
        messages := [⟨"user", [ContentBlock.text DataAnalyst.user_question]⟩] }),
    outSpec := some
      { path := "RECOMMENDATION_ENGINE.md",
        header := "# Recommendation Engine Design\n\n**Athletic Optimization System - Analysis & Decision Logic**\n\n",
        confirm := "\n✅ Recommendation engine design saved to RECOMMENDATION_ENGINE.md" } }

namespace ProjectManager

def system_prompt : String := "You are an expert Project Manager specializing in technical project coordination and AI system integration.\n\nYour job:\n- Coordinate work across multiple specialists\n- Create integration roadmaps\n- Define milestones and deliverables\n- Identify dependencies and risks\n- Manage timeline and resource allocation\n- Ensure all components work together\n\nFocus on practical execution and clear accountability."

def user_question : String := "Create the master integration and execution plan for the athletic optimization system:\n\n**TEAM OUTPUTS TO INTEGRATE:**\n1. System Architect → Overall architecture design\n2. Data Engineer → API integration specifications\n3. Backend Developer → Python implementation code\n4. Data Analyst → Recommendation engine logic\n5. QA/DevOps → Testing and deployment strategy\n\n**PROJECT PHASES:**\n\n**Phase 1: Foundation (Week 1-2)**\n- Set up development environment\n- Implement OAuth authentication for both APIs\n- Create database schema\n- Build basic data fetching\n\n**Phase 2: Data Pipeline (Week 3-4)**\n- Implement data transformation (km→miles)\n- Build automated daily sync\n- Add data validation and error handling\n- Test end-to-end data flow\n\n**Phase 3: Analysis Engine (Week 5-6)**\n- Implement recommendation algorithms\n- Build alert system (RHR, HRV thresholds)\n- Create trend analysis\n- Test decision logic\n\n**Phase 4: Testing & Deployment (Week 7-8)**\n- Comprehensive testing (unit, integration, end-to-end)\n- Security audit\n- Set up monitoring\n- Deploy to production\n- Documentation finalization\n\n**DELIVERABLES:**\n- Detailed task breakdown for each phase\n- Dependency mapping\n- Risk assessment and mitigation\n- Success metrics\n- Timeline with milestones\n- Handoff protocols between specialists\n- Integration testing checklist\n\n**PROVIDE:**\n- Gantt chart (text format)\n- Task assignments\n- Integration sequence\n- Testing gates\n- Go-live checklist"

end ProjectManager

/-- Script `project_manager.py`: writes `PROJECT_PLAN.md` with a two-line
header. -/
def project_manager : Script :=
  { buildRequest := fun _ => ([], .ok
      { model := "claude-sonnet-4-20250514", max_tokens := 4000,
        system := some ProjectManager.system_prompt,
        messages := [⟨"user", [ContentBlock.text ProjectManager.user_question]⟩] }),
    outSpec := some
      { path := "PROJECT_PLAN.md",
        header := "# Project Integration Plan\n\n**Athletic Optimization System - Master Execution Roadmap**\n\n",
        confirm := "\n✅ Project plan saved to PROJECT_PLAN.md" } }

namespace QaDevops

def system_prompt : String := "You are an expert QA Engineer and DevOps specialist.\n\nYour job:\n- Design comprehensive testing strategies\n- Create CI/CD pipelines\n- Implement security best practices\n- Define monitoring and alerting\n- Specify deployment automation\n- Document quality assurance processes\n\nFocus on production-ready, automated solutions."

def user_question : String := "Design the QA and deployment strategy for the athletic optimization system:\n\n**TESTING REQUIREMENTS:**\n\n1. **Unit Tests:**\n   - API client authentication\n   - Data transformation functions (especially km→miles conversion)\n   - Database operations\n   - Recommendation engine logic\n   - Error handling\n\n2. **Integration Tests:**\n   - End-to-end OAuth flows\n   - API data fetching and storage\n   - Multi-device data synchronization\n   - Alert generation\n\n3. **Data Validation Tests:**\n   - Range checks (HR 40-220 bpm, pace 4-20 min/mile)\n   - Format validation (timestamps, coordinates)\n   - Deduplication logic\n   - Missing data handling\n\n**SECURITY REQUIREMENTS:**\n- API key rotation strategy\n- Secure credential storage\n- Rate limiting protection\n- Data encryption (at rest and in transit)\n- Privacy compliance (GDPR considerations)\n\n**DEPLOYMENT PIPELINE:**\n- GitHub Actions CI/CD workflow\n- Automated testing on every commit\n- Staging environment testing\n- Production deployment process\n- Rollback procedures\n\n**MONITORING:**\n- API health checks\n- Data pipeline success/failure tracking\n- Performance metrics\n- Error logging and alerting\n- Usage analytics\n\n**PROVIDE:**\n- pytest test examples\n- GitHub Actions workflow YAML\n- Security checklist\n- Monitoring dashboard specifications\n- Deployment runbook"

end QaDevops

/-- Script `qa_devops.py`: writes `QA_DEVOPS_GUIDE.md` with a two-line header. -/
def qa_devops : Script :=
  { buildRequest := fun _ => ([], .ok
      { model := "claude-sonnet-4-20250514", max_tokens := 4000,
        system := some QaDevops.system_prompt,
        messages := [⟨"user", [ContentBlock.text QaDevops.user_question]⟩] }),
    outSpec := some
      { path := "QA_DEVOPS_GUIDE.md",
        header := "# QA and DevOps Guide\n\n**Athletic Optimization System - Testing & Deployment**\n\n",
        confirm := "\n✅ QA/DevOps guide saved to QA_DEVOPS_GUIDE.md" } }

namespace BriefingGenerator

def system_prompt : String := "You are Michael\x27s Performance Optimization Analyst.\n\nGenerate his daily training briefing in this EXACT format:\n\n==============================================\nTRAINING BRIEFING - [Date]\n==============================================\n\nRECOVERY STATUS: [✅ READY / ⚠️ ELEVATED / 🔴 REST NEEDED]\n- RHR: [X] bpm ([comparison to 49 baseline])\n- HRV: [X] ms ([status])\n- Sleep: [X] hrs, [X]% efficiency, [X] hrs deep\n- Readiness: [X]/100\n\nTRAINING PROGRESS:\n- Total miles: [X] (Week [X] complete)\n- Improvement since Oct 15:\n  • RHR: [start] → [current] bpm ([change])\n  • Threshold: [start] → [current]/mile ([change])\n  • Mt Ryan: [start] → [current] ([change])\n\nCURRENT PHASE: [Phase] (Week [X] of 24)\n- Next tempo: [Day] ([X] days)\n- Next Mt Ryan: [Date] ([X] days)\n- Next long run: [Date] ([X] days)\n- Race day: March 29 ([X] days, [X] weeks)\n\nTHIS WEEK:\n- Target: [X]-[X] miles\n- Current: [X] miles\n- Remaining: [X]-[X] miles\n\nTODAY\x27S WORKOUT: [Workout Type]\n- Target pace: [X]:[X]/mile\n- Target HR: [X]-[X] bpm (Zone [X])\n- Distance: [X] miles\n- Focus: [Primary focus]\n\nFUEL PLAN:\n- Pre-run: [Specific foods and amounts]\n- During: [Fuel strategy]\n- Post-run: [Recovery nutrition]\n\nFOCUS AREAS:\n[3-4 specific tactical items]\n\nWHY THIS MATTERS:\n[1-2 sentence physiological reasoning]\n\nSYSTEM INSIGHT:\n[Current trajectory, predictions, confidence levels]\n==============================================\n\nExtract ALL data from the screenshots. Be specific with numbers. Reference his training plan."

def user_text : String := "Generate my morning training briefing from these screenshots. Today is Tuesday, January 07, 2026. Week 12 training cycle."

def oura_screenshot_path : String := "oura_morning.png"

def training_log_path : String := "training_log.png"

/-- The request `generate_briefing` submits, given the two base64 image
strings: both screenshots as `image/png` base64 source blocks followed by
the text block. -/
def briefing_request (oura_image training_image : String) : Request :=
  { model := "claude-sonnet-4-20250514", max_tokens := 3000,
    system := some system_prompt,
    messages := [⟨"user",
      [ContentBlock.image "image/png" oura_image,
       ContentBlock.image "image/png" training_image,
       ContentBlock.text user_text]⟩] }

/-- The request-building phase of `generate_briefing`: encode the Oura
screenshot, then the training-log screenshot, then assemble the request;
an unreadable image aborts with `IOError` before the service call. -/
def build (bf : String → Option (List Nat)) :
    List Event × Except RunError Request :=
  match encode_image bf oura_screenshot_path with
  | .error e => ([Event.readBin oura_screenshot_path], .error e)
  | .ok oura_image =>
    match encode_image bf training_log_path with
    | .error e =>
        ([Event.readBin oura_screenshot_path, Event.readBin training_log_path],
         .error e)
    | .ok training_image =>
        ([Event.readBin oura_screenshot_path, Event.readBin training_log_path],
         .ok (briefing_request oura_image training_image))

end BriefingGenerator

/-- Script `briefing_generator.py`: encodes the two screenshots, calls the
service, prints the briefing and writes it — body only, no header — to
`DAILY_BRIEFING.txt`. -/
def briefing_generator : Script :=
  { buildRequest := BriefingGenerator.build,
    outSpec := some
      { path := "DAILY_BRIEFING.txt",
        header := "",
        confirm := "\n✅ Briefing saved to DAILY_BRIEFING.txt" } }

/-- The eight scripts of the repository. -/
def allScripts : List Script :=
  [test_claude, system_architect, data_engineer, backend_developer,
   data_analyst, project_manager, qa_devops, briefing_generator]

/-! ## Characterization of a run, by phase outcome -/

theorem runScript_build_error (sc : Script) (env : Env) (evs : List Event)
    (e : RunError) (hb : sc.buildRequest env.binFiles = (evs, .error e)) :
    runScript sc env = ⟨evs, env.textFiles, .error e⟩ := by
  simp [runScript, hb]

theorem runScript_no_key (sc : Script) (env : Env) (evs : List Event)
    (req : Request) (hb : sc.buildRequest env.binFiles = (evs, .ok req))
    (hk : env.apiKey = none) :
    runScript sc env =
      ⟨evs ++ [.apiCall req], env.textFiles, .error .authenticationError⟩ := by
  simp [runScript, hb, messagesCreate, hk]

theorem runScript_service_error (sc : Script) (env : Env) (evs : List Event)
    (req : Request) (k : String) (e : RunError)
    (hb : sc.buildRequest env.binFiles = (evs, .ok req))
    (hk : env.apiKey = some k) (hs : env.service req = .error e) :
    runScript sc env = ⟨evs ++ [.apiCall req], env.textFiles, .error e⟩ := by
  simp [runScript, hb, messagesCreate, hk, hs]

theorem runScript_ok_none (sc : Script) (env : Env) (evs : List Event)
    (req : Request) (k : String) (t : String) (rest : List ContentBlock)
    (hb : sc.buildRequest env.binFiles = (evs, .ok req))
    (hk : env.apiKey = some k)
    (hs : env.service req = .ok ⟨ContentBlock.text t :: rest⟩)
    (ho : sc.outSpec = none) :
    runScript sc env =
      ⟨evs ++ [.apiCall req, .stdout t], env.textFiles, .ok ()⟩ := by
  simp [runScript, hb, messagesCreate, hk, hs, extractBody, ho]

theorem runScript_ok_out (sc : Script) (env : Env) (evs : List Event)
    (req : Request) (k : String) (t : String) (rest : List ContentBlock)
    (o : OutputSpec)
    (hb : sc.buildRequest env.binFiles = (evs, .ok req))
    (hk : env.apiKey = some k)
    (hs : env.service req = .ok ⟨ContentBlock.text t :: rest⟩)
    (ho : sc.outSpec = some o) (hw : env.writable o.path = true) :
    runScript sc env =
      ⟨evs ++ [.apiCall req, .stdout t, .fileOpen o.path,
               .fileWrite o.path (o.header ++ t), .stdout o.confirm],
       fun p => if p = o.path then some (o.header ++ t) else env.textFiles p,
       .ok ()⟩ := by
  simp [runScript, hb, messagesCreate, hk, hs, extractBody, ho, hw]

theorem runScript_out_readonly (sc : Script) (env : Env) (evs : List Event)
    (req : Request) (k : String) (t : String) (rest : List ContentBlock)
    (o : OutputSpec)
    (hb : sc.buildRequest env.binFiles = (evs, .ok req))
    (hk : env.apiKey = some k)
    (hs : env.service req = .ok ⟨ContentBlock.text t :: rest⟩)
    (ho : sc.outSpec = some o) (hw : env.writable o.path = false) :
    runScript sc env =
      ⟨evs ++ [.apiCall req, .stdout t, .fileOpen o.path],
       env.textFiles, .error .ioError⟩ := by
  simp [runScript, hb, messagesCreate, hk, hs, extractBody, ho, hw]

/-- In every script of the repository, the request-building phase performs
only binary file reads: it prints nothing, opens no output file and makes
no service call. -/
theorem build_events_readBin (sc : Script) (hsc : sc ∈ allScripts)
    (bf : String → Option (List Nat)) :
    ∀ e ∈ (sc.buildRequest bf).1, e.isReadBin = true := by
  fin_cases hsc
  · simp [test_claude]
  · simp [system_architect]
  · simp [data_engineer]
  · simp [backend_developer]
  · simp [data_analyst]
  · simp [project_manager]
  · simp [qa_devops]
  · show ∀ e ∈ (BriefingGenerator.build bf).1, e.isReadBin = true
    unfold BriefingGenerator.build
    cases h1 : encode_image bf BriefingGenerator.oura_screenshot_path with
    | error e => simp [Event.isReadBin]
    | ok oura =>
        cases h2 : encode_image bf BriefingGenerator.training_log_path with
        | error e => simp [Event.isReadBin]
        | ok training => simp [Event.isReadBin]

/-- No event other than a binary read occurs while a script of the
repository builds its request. -/
theorem not_readBin_not_mem_build (sc : Script) (hsc : sc ∈ allScripts)
    (bf : String → Option (List Nat)) (evs : List Event)
    (r : Except RunError Request) (hb : sc.buildRequest bf = (evs, r))
    (e : Event) (he : e.isReadBin = false) : e ∉ evs := by
  intro hmem
  have h := build_events_readBin sc hsc bf e (by rw [hb]; exact hmem)
  rw [he] at h
  exact Bool.false_ne_true h

/-! ## Concrete test environments -/

/-- A permissive environment: no pre-existing files, every path writable,
a configured credential, and a service replying with two text blocks. -/
def envW : Env :=
  { textFiles := fun _ => none,
    binFiles := fun _ => none,
    writable := fun _ => true,
    apiKey := some "sk-test",
    service := fun _ => .ok ⟨[ContentBlock.text "Hello! I\x27m working.",
                              ContentBlock.text "a second content block"]⟩ }

/-- An environment whose binary files hold the two screenshots the
briefing generator reads. -/
def envB : Env :=
  { textFiles := fun _ => none,
    binFiles := fun p =>
      if p = "oura_morning.png" then some [137, 80, 78, 71, 13, 10, 26, 10]
      else if p = "training_log.png" then some [1, 2, 250]
      else none,
    writable := fun _ => true,
    apiKey := some "sk-test",
    service := fun _ => .ok ⟨[ContentBlock.text "TRAINING BRIEFING - ok"]⟩ }

/-! ## C1 -/

/-- C1: for every successful invocation of any script, the body that is
printed and persisted is exactly the text of the first content block of
the service response: the run is indistinguishable from one whose
response holds only that first block, the only printed lines are the body
and the confirmation, and the persisted file is header ++ body. -/
theorem c1_first_block_only (sc : Script) (hsc : sc ∈ allScripts)
    (env : Env) (t : String) (rest : List ContentBlock) (k : String)
    (evs : List Event) (req : Request)
    (hb : sc.buildRequest env.binFiles = (evs, .ok req))
    (hk : env.apiKey = some k)
    (hserv : ∀ r, env.service r = .ok ⟨ContentBlock.text t :: rest⟩) :
    runScript sc env =
      runScript sc
        { env with service := fun _ => .ok ⟨[ContentBlock.text t]⟩ } ∧
    (∀ s, Event.stdout s ∈ (runScript sc env).trace →
      s = t ∨ ∃ o, sc.outSpec = some o ∧ s = o.confirm) ∧
    (∀ o, sc.outSpec = some o → env.writable o.path = true →
      (runScript sc env).files o.path = some (o.header ++ t)) := by
  have hnostdout : ∀ s : String, Event.stdout s ∉ evs := fun s =>
    not_readBin_not_mem_build sc hsc env.binFiles evs (.ok req) hb
      (Event.stdout s) rfl
  rcases ho : sc.outSpec with _ | o
  · have h1 := runScript_ok_none sc env evs req k t rest hb hk (hserv req) ho
    have h2 := runScript_ok_none sc
      { env with service := fun _ => .ok ⟨[ContentBlock.text t]⟩ }
      evs req k t [] hb hk rfl ho
    refine ⟨h1.trans h2.symm, ?_, ?_⟩
    · intro s hs
      rw [h1] at hs
      simp only [List.mem_append, List.mem_cons, List.not_mem_nil,
        or_false] at hs
      rcases hs with hs | hs | hs
      · exact absurd hs (hnostdout s)
      · exact absurd hs (by simp)
      · left
        exact (Event.stdout.injEq s t).mp hs
    · intro o hoo
      exact absurd hoo (by simp)
  · cases hw : env.writable o.path with
    | true =>
        have h1 := runScript_ok_out sc env evs req k t rest o hb hk
          (hserv req) ho hw
        have h2 := runScript_ok_out sc
          { env with service := fun _ => .ok ⟨[ContentBlock.text t]⟩ }
          evs req k t [] o hb hk rfl ho hw
        refine ⟨h1.trans h2.symm, ?_, ?_⟩
        · intro s hs
          rw [h1] at hs
          simp only [List.mem_append, List.mem_cons, List.not_mem_nil,
            or_false] at hs
          rcases hs with hs | hs | hs | hs | hs | hs
          · exact absurd hs (hnostdout s)
          · exact absurd hs (by simp)
          · left
            exact (Event.stdout.injEq s t).mp hs
          · exact absurd hs (by simp)
          · exact absurd hs (by simp)
          · right
            exact ⟨o, rfl, (Event.stdout.injEq s o.confirm).mp hs⟩
        · intro o' hoo hw'
          have hoe : o' = o := ((Option.some.injEq o o').mp hoo).symm
          subst hoe
          rw [h1]
          simp
    | false =>
        have h1 := runScript_out_readonly sc env evs req k t rest o hb hk
          (hserv req) ho hw
        have h2 := runScript_out_readonly sc
          { env with service := fun _ => .ok ⟨[ContentBlock.text t]⟩ }
          evs req k t [] o hb hk rfl ho hw
        refine ⟨h1.trans h2.symm, ?_, ?_⟩
        · intro s hs
          rw [h1] at hs
          simp only [List.mem_append, List.mem_cons, List.not_mem_nil,
            or_false] at hs
          rcases hs with hs | hs | hs | hs
          · exact absurd hs (hnostdout s)
          · exact absurd hs (by simp)
          · left
            exact (Event.stdout.injEq s t).mp hs
          · exact absurd hs (by simp)
        · intro o' hoo hw'
          have hoe : o' = o := ((Option.some.injEq o o').mp hoo).symm
          subst hoe
          rw [hw] at hw'
          exact absurd hw' (by simp)

/-- C1 witness: `data_engineer` run against a service answering with two
content blocks persists header ++ first block's text. -/
theorem c1_witness :
    (runScript data_engineer envW).files "DATA_INTEGRATION_GUIDE.md" =
      some ("# Data Integration Guide\n\n**Athletic Optimization System - API Integration Specifications**\n\n" ++
        "Hello! I\x27m working.") := by
  exact (c1_first_block_only data_engineer (by simp [allScripts]) envW
    "Hello! I\x27m working." [ContentBlock.text "a second content block"]
    "sk-test" [] _ rfl rfl (fun _ => rfl)).2.2 _ rfl rfl

/-! ## C2 -/

/-- C2 counterexample: `test_claude.py` run successfully (exit zero)
never opens or writes any file and prints nothing but the body — no
confirmation line — refuting the claim for this script. -/
theorem c2_counterexample :
    (runScript test_claude envW).result = .ok () ∧
    (runScript test_claude envW).trace.all
      (fun e => !e.isFileWrite && !e.isFileOpen) = true ∧
    (runScript test_claude envW).trace.filter Event.isStdout =
      [Event.stdout "Hello! I\x27m working."] :=
  ⟨rfl, rfl, rfl⟩

/-- A binary read is neither a file open nor a file write. -/
theorem readBin_not_file (e : Event) (he : e.isReadBin = true) :
    (!e.isFileWrite && !e.isFileOpen) = true := by
  cases e <;> simp_all [Event.isReadBin, Event.isFileWrite, Event.isFileOpen]

/-- In every script that persists an artifact, the confirmation line
contains the output path. -/
theorem confirm_contains_path (sc : Script) (hsc : sc ∈ allScripts)
    (o : OutputSpec) (ho : sc.outSpec = some o) :
    ∃ pre post, o.confirm = pre ++ o.path ++ post := by
  fin_cases hsc
  · exact absurd ho (by simp [test_claude])
  · simp only [system_architect, Option.some.injEq] at ho
    exact ⟨"\n✅ Architecture saved to ", "", by rw [← ho]; rfl⟩
  · simp only [data_engineer, Option.some.injEq] at ho
    exact ⟨"\n✅ Data integration guide saved to ", "", by rw [← ho]; rfl⟩
  · simp only [backend_developer, Option.some.injEq] at ho
    exact ⟨"\n✅ Implementation code saved to ", "", by rw [← ho]; rfl⟩
  · simp only [data_analyst, Option.some.injEq] at ho
    exact ⟨"\n✅ Recommendation engine design saved to ", "", by rw [← ho]; rfl⟩
  · simp only [project_manager, Option.some.injEq] at ho
    exact ⟨"\n✅ Project plan saved to ", "", by rw [← ho]; rfl⟩
  · simp only [qa_devops, Option.some.injEq] at ho
    exact ⟨"\n✅ QA/DevOps guide saved to ", "", by rw [← ho]; rfl⟩
  · simp only [briefing_generator, Option.some.injEq] at ho
    exact ⟨"\n✅ Briefing saved to ", "", by rw [← ho]; rfl⟩

/-- C2 amended: every script that persists an artifact (all but
`test_claude.py`) prints the body, writes the file, prints a confirmation
line containing the output path and exits zero; `test_claude.py` prints
the body and exits zero but opens no file and prints no confirmation. -/
theorem c2_amended (sc : Script) (hsc : sc ∈ allScripts) (env : Env)
    (t : String) (rest : List ContentBlock) (k : String)
    (evs : List Event) (req : Request)
    (hb : sc.buildRequest env.binFiles = (evs, .ok req))
    (hk : env.apiKey = some k)
    (hserv : ∀ r, env.service r = .ok ⟨ContentBlock.text t :: rest⟩)
    (hw : ∀ p, env.writable p = true) :
    (runScript sc env).result = .ok () ∧
    Event.stdout t ∈ (runScript sc env).trace ∧
    (∀ o, sc.outSpec = some o →
      (runScript sc env).files o.path = some (o.header ++ t) ∧
      Event.fileWrite o.path (o.header ++ t) ∈ (runScript sc env).trace ∧
      Event.stdout o.confirm ∈ (runScript sc env).trace ∧
      ∃ pre post, o.confirm = pre ++ o.path ++ post) ∧
    (sc.outSpec = none →
      (runScript sc env).trace.all
        (fun e => !e.isFileWrite && !e.isFileOpen) = true ∧
      (runScript sc env).trace.filter Event.isStdout = [Event.stdout t]) := by
  have hreads := build_events_readBin sc hsc env.binFiles
  rw [hb] at hreads
  rcases ho : sc.outSpec with _ | o
  · have h1 := runScript_ok_none sc env evs req k t rest hb hk (hserv req) ho
    rw [h1]
    refine ⟨rfl, by simp, ?_, ?_⟩
    · intro o hoo
      exact absurd hoo (by simp)
    · intro _
      constructor
      · simp only [List.all_append, Bool.and_eq_true]
        refine ⟨?_, rfl⟩
        exact List.all_eq_true.mpr fun e he => readBin_not_file e (hreads e he)
      · simp only [List.filter_append]
        have hnil : evs.filter Event.isStdout = [] := by
          refine List.filter_eq_nil_iff.mpr fun e he => ?_
          have := hreads e he
          cases e <;> simp_all [Event.isReadBin, Event.isStdout]
        rw [hnil]
        rfl
  · have h1 := runScript_ok_out sc env evs req k t rest o hb hk (hserv req)
      ho (hw o.path)
    rw [h1]
    refine ⟨rfl, by simp, ?_, ?_⟩
    · intro o' hoo
      have hoe : o = o' := (Option.some.injEq o o').mp hoo
      rw [← hoe]
      refine ⟨by simp, by simp, by simp, ?_⟩
      exact confirm_contains_path sc hsc o ho
    · intro hnone
      exact absurd hnone (by simp)

/-- C2 witness for the amended claim: `system_architect` run against a
working service exits zero, prints the body, and writes the artifact. -/
theorem c2_witness :
    (runScript system_architect envW).result = .ok () ∧
    Event.stdout "Hello! I\x27m working." ∈
      (runScript system_architect envW).trace ∧
    (runScript system_architect envW).files "ARCHITECTURE.md" =
      some ("# Athletic Optimization System Architecture\n\n" ++
        "Hello! I\x27m working.") := by
  have h := c2_amended system_architect (by simp [allScripts]) envW
    "Hello! I\x27m working." [ContentBlock.text "a second content block"]
    "sk-test" [] _ rfl rfl (fun _ => rfl) (fun _ => rfl)
  exact ⟨h.1, h.2.1, (h.2.2.1 _ rfl).1⟩

/-! ## C3 -/

/-- C3 counterexample: `briefing_generator.py` writes the body alone to
`DAILY_BRIEFING.txt` — the written file cannot be decomposed as a
two-line header followed by the body. -/
theorem c3_counterexample :
    (runScript briefing_generator envB).files "DAILY_BRIEFING.txt" =
      some "TRAINING BRIEFING - ok" ∧
    ¬∃ title subtitle : String,
      "TRAINING BRIEFING - ok" =
        title ++ "\n\n" ++ subtitle ++ "\n\n" ++ "TRAINING BRIEFING - ok" := by
  constructor
  · rfl
  · rintro ⟨title, subtitle, h⟩
    have hl := congrArg String.length h
    rw [String.length_append, String.length_append, String.length_append,
        String.length_append] at hl
    have h2 : ("\n\n" : String).length = 2 := rfl
    have h22 : ("TRAINING BRIEFING - ok" : String).length = 22 := rfl
    rw [h2, h22] at hl
    omega

/-- The headers of the artifact-writing scripts: a two-line header for
the five role guides, a single title line for `system_architect.py`, and
nothing at all for `briefing_generator.py`. -/
theorem header_shape (sc : Script) (hsc : sc ∈ allScripts)
    (o : OutputSpec) (ho : sc.outSpec = some o) :
    (o.path ≠ "ARCHITECTURE.md" → o.path ≠ "DAILY_BRIEFING.txt" →
      ∃ title subtitle : String, title ≠ "" ∧ subtitle ≠ "" ∧
        o.header = title ++ "\n\n" ++ subtitle ++ "\n\n") ∧
    (o.path = "ARCHITECTURE.md" →
      o.header = "# Athletic Optimization System Architecture\n\n") ∧
    (o.path = "DAILY_BRIEFING.txt" → o.header = "") := by
  fin_cases hsc
  · exact absurd ho (by simp [test_claude])
  · simp only [system_architect, Option.some.injEq] at ho
    rw [← ho]
    exact ⟨fun h _ => absurd rfl h, fun _ => rfl, fun h => absurd h (by decide)⟩
  · simp only [data_engineer, Option.some.injEq] at ho
    rw [← ho]
    refine ⟨fun _ _ => ⟨"# Data Integration Guide",
      "**Athletic Optimization System - API Integration Specifications**",
      by decide, by decide, rfl⟩, fun h => absurd h (by decide),
      fun h => absurd h (by decide)⟩
  · simp only [backend_developer, Option.some.injEq] at ho
    rw [← ho]
    refine ⟨fun _ _ => ⟨"# Implementation Code",
      "**Athletic Optimization System - Core Python Modules**",
      by decide, by decide, rfl⟩, fun h => absurd h (by decide),
      fun h => absurd h (by decide)⟩
  · simp only [data_analyst, Option.some.injEq] at ho
    rw [← ho]
    refine ⟨fun _ _ => ⟨"# Recommendation Engine Design",
      "**Athletic Optimization System - Analysis & Decision Logic**",
      by decide, by decide, rfl⟩, fun h => absurd h (by decide),
      fun h => absurd h (by decide)⟩
  · simp only [project_manager, Option.some.injEq] at ho
    rw [← ho]
    refine ⟨fun _ _ => ⟨"# Project Integration Plan",
      "**Athletic Optimization System - Master Execution Roadmap**",
      by decide, by decide, rfl⟩, fun h => absurd h (by decide),
      fun h => absurd h (by decide)⟩
  · simp only [qa_devops, Option.some.injEq] at ho
    rw [← ho]
    refine ⟨fun _ _ => ⟨"# QA and DevOps Guide",
      "**Athletic Optimization System - Testing & Deployment**",
      by decide, by decide, rfl⟩, fun h => absurd h (by decide),
      fun h => absurd h (by decide)⟩
  · simp only [briefing_generator, Option.some.injEq] at ho
    rw [← ho]
    exact ⟨fun _ h => absurd rfl h, fun h => absurd h (by decide), fun _ => rfl⟩

/-- C3 amended: every artifact-writing script writes header ++ body with
the body unmodified; the header is the literal two-line title/subtitle
header for the five role guides, but `system_architect.py` writes only a
title line and `briefing_generator.py` writes the body with no header at
all. -/
theorem c3_amended (sc : Script) (hsc : sc ∈ allScripts) (env : Env)
    (t : String) (rest : List ContentBlock) (k : String)
    (evs : List Event) (req : Request)
    (hb : sc.buildRequest env.binFiles = (evs, .ok req))
    (hk : env.apiKey = some k)
    (hserv : ∀ r, env.service r = .ok ⟨ContentBlock.text t :: rest⟩)
    (o : OutputSpec) (ho : sc.outSpec = some o)
    (hw : env.writable o.path = true) :
    (runScript sc env).files o.path = some (o.header ++ t) ∧
    (o.path ≠ "ARCHITECTURE.md" → o.path ≠ "DAILY_BRIEFING.txt" →
      ∃ title subtitle : String, title ≠ "" ∧ subtitle ≠ "" ∧
        o.header = title ++ "\n\n" ++ subtitle ++ "\n\n") ∧
    (o.path = "ARCHITECTURE.md" →
      o.header = "# Athletic Optimization System Architecture\n\n") ∧
    (o.path = "DAILY_BRIEFING.txt" → o.header = "") := by
  have h1 := runScript_ok_out sc env evs req k t rest o hb hk (hserv req)
    ho hw
  have h2 := header_shape sc hsc o ho
  rw [h1]
  exact ⟨by simp, h2.1, h2.2.1, h2.2.2⟩

/-- C3 witness for the amended claim: `data_engineer` writes its two-line
header followed by the body. -/
theorem c3_witness :
    (runScript data_engineer envW).files "DATA_INTEGRATION_GUIDE.md" =
      some ("# Data Integration Guide\n\n**Athletic Optimization System - API Integration Specifications**\n\n" ++
        "Hello! I\x27m working.") ∧
    ∃ title subtitle : String, title ≠ "" ∧ subtitle ≠ "" ∧
      ("# Data Integration Guide\n\n**Athletic Optimization System - API Integration Specifications**\n\n" : String) =
        title ++ "\n\n" ++ subtitle ++ "\n\n" := by
  have h := c3_amended data_engineer (by simp [allScripts]) envW
    "Hello! I\x27m working." [ContentBlock.text "a second content block"]
    "sk-test" [] _ rfl rfl (fun _ => rfl) _ rfl rfl
  exact ⟨h.1, h.2.1 (by decide) (by decide)⟩

/-! ## C4 -/

/-- An environment with no credential configured anywhere. -/
def envNoKey : Env := { envW with apiKey := none }

/-- C4: with no credential configured, every script fails with
`AuthenticationError`, no file is opened or written, pre-existing files
are untouched, and the failure surfaces at the service call itself (the
call event is in the trace; client construction is total). -/
theorem c4_missing_credential (sc : Script) (hsc : sc ∈ allScripts)
    (env : Env) (hk : env.apiKey = none)
    (evs : List Event) (req : Request)
    (hb : sc.buildRequest env.binFiles = (evs, .ok req)) :
    (runScript sc env).result = .error .authenticationError ∧
    (∀ p, (runScript sc env).files p = env.textFiles p) ∧
    (runScript sc env).trace.all
      (fun e => !e.isFileWrite && !e.isFileOpen) = true ∧
    Event.apiCall req ∈ (runScript sc env).trace := by
  have hreads := build_events_readBin sc hsc env.binFiles
  rw [hb] at hreads
  have h1 := runScript_no_key sc env evs req hb hk
  rw [h1]
  refine ⟨rfl, fun p => rfl, ?_, by simp⟩
  simp only [List.all_append, Bool.and_eq_true]
  exact ⟨List.all_eq_true.mpr fun e he => readBin_not_file e (hreads e he), rfl⟩

/-- C4 witness: `system_architect` without a credential fails with
`AuthenticationError` and leaves no artifact. -/
theorem c4_witness :
    (runScript system_architect envNoKey).result =
      .error .authenticationError ∧
    (runScript system_architect envNoKey).files "ARCHITECTURE.md" = none := by
  have h := c4_missing_credential system_architect (by simp [allScripts])
    envNoKey rfl [] _ rfl
  exact ⟨h.1, h.2.1 "ARCHITECTURE.md"⟩

/-! ## C5 -/

/-- C5: if either screenshot is absent or unreadable, `encode_image`
fails with `IOError`, `generate_briefing` performs no service call, and
no file is touched — both image encodings precede the request. -/
theorem c5_missing_image (env : Env)
    (hmiss : env.binFiles "oura_morning.png" = none ∨
             env.binFiles "training_log.png" = none) :
    (encode_image env.binFiles "oura_morning.png" = .error .ioError ∨
     encode_image env.binFiles "training_log.png" = .error .ioError) ∧
    (runScript briefing_generator env).result = .error .ioError ∧
    (runScript briefing_generator env).trace.all
      (fun e => !e.isApiCall) = true ∧
    (∀ p, (runScript briefing_generator env).files p = env.textFiles p) := by
  rcases hmo : env.binFiles "oura_morning.png" with _ | ob
  · have he1 : encode_image env.binFiles "oura_morning.png" =
        .error .ioError := by
      simp [encode_image, hmo]
    have hb : briefing_generator.buildRequest env.binFiles =
        ([Event.readBin "oura_morning.png"], .error .ioError) := by
      simp [briefing_generator, BriefingGenerator.build,
        BriefingGenerator.oura_screenshot_path, he1]
    have h1 := runScript_build_error briefing_generator env _ _ hb
    rw [h1]
    exact ⟨Or.inl he1, rfl, rfl, fun p => rfl⟩
  · have hmt : env.binFiles "training_log.png" = none := by
      rcases hmiss with h | h
      · rw [hmo] at h
        exact absurd h (by simp)
      · exact h
    have he1 : encode_image env.binFiles "oura_morning.png" =
        .ok (b64encode ob) := by
      simp [encode_image, hmo]
    have he2 : encode_image env.binFiles "training_log.png" =
        .error .ioError := by
      simp [encode_image, hmt]
    have hb : briefing_generator.buildRequest env.binFiles =
        ([Event.readBin "oura_morning.png", Event.readBin "training_log.png"],
         .error .ioError) := by
      simp [briefing_generator, BriefingGenerator.build,
        BriefingGenerator.oura_screenshot_path,
        BriefingGenerator.training_log_path, he1, he2]
    have h1 := runScript_build_error briefing_generator env _ _ hb
    rw [h1]
    exact ⟨Or.inr he2, rfl, rfl, fun p => rfl⟩

/-- An environment in which neither screenshot exists. -/
def envMiss : Env := { envB with binFiles := fun _ => none }

/-- C5 witness: with no screenshots on disk the briefing generator fails
with `IOError` and never calls the service. -/
theorem c5_witness :
    (runScript briefing_generator envMiss).result = .error .ioError ∧
    (runScript briefing_generator envMiss).trace.all
      (fun e => !e.isApiCall) = true := by
  have h := c5_missing_image envMiss (Or.inl rfl)
  exact ⟨h.2.1, h.2.2.1⟩

/-! ## C6 -/

/-- C6: for a readable path, `encode_image` returns the base64 encoding
of the file's entire contents (losslessly recoverable), and
`generate_briefing` tags every image block of its request with the fixed
mime type `image/png`, its data one of the two whole-file encodings. -/
theorem c6_encode_image_png (bf : String → Option (List Nat))
    (ob tb : List Nat)
    (hob : bf "oura_morning.png" = some ob)
    (htb : bf "training_log.png" = some tb)
    (hb1 : ∀ b ∈ ob, b < 256) (hb2 : ∀ b ∈ tb, b < 256) :
    encode_image bf "oura_morning.png" = .ok (b64encode ob) ∧
    b64decode (b64encode ob) = some ob ∧
    b64decode (b64encode tb) = some tb ∧
    (BriefingGenerator.build bf).2 =
      .ok (BriefingGenerator.briefing_request (b64encode ob) (b64encode tb)) ∧
    (∀ turn ∈ (BriefingGenerator.briefing_request (b64encode ob)
        (b64encode tb)).messages,
      ∀ blk ∈ turn.content, ∀ mime data,
        blk = ContentBlock.image mime data →
        mime = "image/png" ∧
        (data = b64encode ob ∨ data = b64encode tb)) := by
  have he1 : encode_image bf "oura_morning.png" = .ok (b64encode ob) := by
    simp [encode_image, hob]
  have he2 : encode_image bf "training_log.png" = .ok (b64encode tb) := by
    simp [encode_image, htb]
  refine ⟨he1, b64decode_b64encode ob hb1, b64decode_b64encode tb hb2, ?_, ?_⟩
  · simp [BriefingGenerator.build, BriefingGenerator.oura_screenshot_path,
      BriefingGenerator.training_log_path, he1, he2]
  · intro turn hturn blk hblk mime data hbd
    simp only [BriefingGenerator.briefing_request, List.mem_singleton]
      at hturn
    subst hturn
    simp only [List.mem_cons, List.not_mem_nil, or_false] at hblk
    rcases hblk with rfl | rfl | rfl
    · have h := (ContentBlock.image.injEq _ _ _ _).mp hbd
      exact ⟨h.1.symm, Or.inl h.2.symm⟩
    · have h := (ContentBlock.image.injEq _ _ _ _).mp hbd
      exact ⟨h.1.symm, Or.inr h.2.symm⟩
    · exact absurd hbd (by simp)

/-- C6 witness: the PNG magic header round-trips through `encode_image`
with the well-known base64 form. -/
theorem c6_witness :
    encode_image envB.binFiles "oura_morning.png" = .ok "iVBORw0KGgo=" ∧
    b64decode "iVBORw0KGgo=" = some [137, 80, 78, 71, 13, 10, 26, 10] := by
  have h := c6_encode_image_png envB.binFiles
    [137, 80, 78, 71, 13, 10, 26, 10] [1, 2, 250] rfl rfl
    (by decide) (by decide)
  have henc : b64encode [137, 80, 78, 71, 13, 10, 26, 10] =
      "iVBORw0KGgo=" := rfl
  constructor
  · rw [← henc]
    exact h.1
  · rw [← henc]
    exact h.2.1

/-! ## C7 -/

/-- C7: running a script a second time against the same output path —
the second run starting from the file state the first run left behind —
leaves the file holding exactly the second run's header ++ body: the
open-for-write truncates, so nothing of the first run's contents
survives. -/
theorem c7_overwrite_idempotent (sc : Script) (hsc : sc ∈ allScripts)
    (env1 env2 : Env) (o : OutputSpec) (ho : sc.outSpec = some o)
    (henv2 : env2.textFiles = (runScript sc env1).files)
    (t2 : String) (rest2 : List ContentBlock) (k2 : String)
    (evs2 : List Event) (req2 : Request)
    (hb2 : sc.buildRequest env2.binFiles = (evs2, .ok req2))
    (hk2 : env2.apiKey = some k2)
    (hs2 : ∀ r, env2.service r = .ok ⟨ContentBlock.text t2 :: rest2⟩)
    (hw2 : env2.writable o.path = true) :
    (runScript sc env2).files o.path = some (o.header ++ t2) := by
  rw [runScript_ok_out sc env2 evs2 req2 k2 t2 rest2 o hb2 hk2 (hs2 req2)
    ho hw2]
  simp

/-- The environment of a second `data_engineer` run: the file state left
by a first run, and a service now answering a different body. -/
def envW2 : Env :=
  { envW with
    textFiles := (runScript data_engineer envW).files,
    service := fun _ => .ok ⟨[ContentBlock.text "second response body"]⟩ }

/-- C7 witness: after running `data_engineer` twice, the artifact holds
only the second response. -/
theorem c7_witness :
    (runScript data_engineer envW2).files "DATA_INTEGRATION_GUIDE.md" =
      some ("# Data Integration Guide\n\n**Athletic Optimization System - API Integration Specifications**\n\n" ++
        "second response body") :=
  c7_overwrite_idempotent data_engineer (by simp [allScripts]) envW envW2
    _ rfl rfl "second response body" [] "sk-test" [] _ rfl rfl
    (fun _ => rfl) rfl

/-! ## C8 -/

/-- C8: in every script the body is printed strictly before the output
file is opened: the trace splits as pre ++ stdout body :: post with no
file-open or file-write in pre; in particular when the open fails with
`IOError`, standard output already carries the full body. -/
theorem c8_print_before_open (sc : Script) (hsc : sc ∈ allScripts)
    (env : Env) (t : String) (rest : List ContentBlock) (k : String)
    (evs : List Event) (req : Request)
    (hb : sc.buildRequest env.binFiles = (evs, .ok req))
    (hk : env.apiKey = some k)
    (hserv : ∀ r, env.service r = .ok ⟨ContentBlock.text t :: rest⟩) :
    (∃ pre post, (runScript sc env).trace = pre ++ Event.stdout t :: post ∧
      ∀ e ∈ pre, e.isFileOpen = false ∧ e.isFileWrite = false) ∧
    (∀ o, sc.outSpec = some o → env.writable o.path = false →
      (runScript sc env).result = .error .ioError ∧
      Event.stdout t ∈ (runScript sc env).trace) := by
  have hreads := build_events_readBin sc hsc env.binFiles
  rw [hb] at hreads
  have hpre : ∀ e ∈ evs ++ [Event.apiCall req],
      e.isFileOpen = false ∧ e.isFileWrite = false := by
    intro e he
    rcases List.mem_append.mp he with he | he
    · have := hreads e he
      cases e <;>
        simp_all [Event.isReadBin, Event.isFileOpen, Event.isFileWrite]
    · simp only [List.mem_singleton] at he
      subst he
      exact ⟨rfl, rfl⟩
  rcases ho : sc.outSpec with _ | o
  · have h1 := runScript_ok_none sc env evs req k t rest hb hk (hserv req) ho
    rw [h1]
    refine ⟨⟨evs ++ [Event.apiCall req], [], by simp, hpre⟩, ?_⟩
    intro o hoo
    exact absurd hoo (by simp)
  · cases hw : env.writable o.path with
    | true =>
        have h1 := runScript_ok_out sc env evs req k t rest o hb hk
          (hserv req) ho hw
        rw [h1]
        refine ⟨⟨evs ++ [Event.apiCall req],
          [Event.fileOpen o.path, Event.fileWrite o.path (o.header ++ t),
           Event.stdout o.confirm], by simp, hpre⟩, ?_⟩
        intro o' hoo hw'
        have hoe : o = o' := (Option.some.injEq o o').mp hoo
        rw [← hoe, hw] at hw'
        exact absurd hw' (by simp)
    | false =>
        have h1 := runScript_out_readonly sc env evs req k t rest o hb hk
          (hserv req) ho hw
        rw [h1]
        refine ⟨⟨evs ++ [Event.apiCall req], [Event.fileOpen o.path],
          by simp, hpre⟩, ?_⟩
        intro o' hoo hw'
        exact ⟨rfl, by simp⟩

/-- An environment in which no path can be opened for writing. -/
def envRO : Env := { envW with writable := fun _ => false }

/-- C8 witness: when the output path cannot be opened the run fails with
`IOError` but the body was already printed. -/
theorem c8_witness :
    (runScript system_architect envRO).result = .error .ioError ∧
    Event.stdout "Hello! I\x27m working." ∈
      (runScript system_architect envRO).trace := by
  have h := c8_print_before_open system_architect (by simp [allScripts])
    envRO "Hello! I\x27m working."
    [ContentBlock.text "a second content block"] "sk-test" [] _ rfl rfl
    (fun _ => rfl)
  exact h.2 _ rfl rfl

/-! ## C9 -/

/-- C9: when the service call fails, the output file is never opened:
the run surfaces that error, the trace holds no file-open or file-write
event, and every pre-existing file is byte-for-byte unchanged. -/
theorem c9_service_failure_no_write (sc : Script) (hsc : sc ∈ allScripts)
    (env : Env) (e : RunError) (k : String)
    (evs : List Event) (req : Request)
    (hb : sc.buildRequest env.binFiles = (evs, .ok req))
    (hk : env.apiKey = some k)
    (hs : ∀ r, env.service r = .error e) :
    (runScript sc env).result = .error e ∧
    (∀ p, (runScript sc env).files p = env.textFiles p) ∧
    (runScript sc env).trace.all
      (fun ev => !ev.isFileWrite && !ev.isFileOpen) = true := by
  have hreads := build_events_readBin sc hsc env.binFiles
  rw [hb] at hreads
  have h1 := runScript_service_error sc env evs req k e hb hk (hs req)
  rw [h1]
  refine ⟨rfl, fun p => rfl, ?_⟩
  simp only [List.all_append, Bool.and_eq_true]
  exact ⟨List.all_eq_true.mpr fun ev he => readBin_not_file ev (hreads ev he),
    rfl⟩

/-- An environment with a pre-existing artifact and a failing service. -/
def envFail : Env :=
  { textFiles := fun p =>
      if p = "ARCHITECTURE.md" then some "previous run contents" else none,
    binFiles := fun _ => none,
    writable := fun _ => true,
    apiKey := some "sk-test",
    service := fun _ => .error .serviceError }

/-- C9 witness: a failing service leaves the pre-existing
`ARCHITECTURE.md` exactly as it was. -/
theorem c9_witness :
    (runScript system_architect envFail).result = .error .serviceError ∧
    (runScript system_architect envFail).files "ARCHITECTURE.md" =
      some "previous run contents" := by
  have h := c9_service_failure_no_write system_architect
    (by simp [allScripts]) envFail .serviceError "sk-test" [] _ rfl rfl
    (fun _ => rfl)
  refine ⟨h.1, ?_⟩
  rw [h.2.1 "ARCHITECTURE.md"]
  rfl

/-! ## C10 -/

/-- C10: `encode_image` is a lossless round-trip encoder: base64-decoding
the string it returns yields exactly the original bytes of the file. -/
theorem c10_encode_image_roundtrip (bf : String → Option (List Nat))
    (path : String) (bytes : List Nat) (hread : bf path = some bytes)
    (hb : ∀ b ∈ bytes, b < 256) :
    ∃ s, encode_image bf path = .ok s ∧ b64decode s = some bytes := by
  refine ⟨b64encode bytes, ?_, b64decode_b64encode bytes hb⟩
  simp [encode_image, hread]

/-- C10 witness: the three training-log bytes round-trip. -/
theorem c10_witness :
    ∃ s, encode_image envB.binFiles "training_log.png" = .ok s ∧
      b64decode s = some [1, 2, 250] :=
  c10_encode_image_roundtrip envB.binFiles "training_log.png" [1, 2, 250]
    rfl (by decide)

end AthleticOpt
